import Mathlib

/-!
# Verification of `weather_analyzer.py`

Shallow embedding of the weather-analysis pipeline:

* `WeatherRecord` mirrors the dictionaries built by `_generate_sample_data`
  (the ISO timestamp is modelled as the number of hours on an `Int` clock).
* `_generate_sample_data` mirrors the loop `for i in range(40)` building each
  record from integer arithmetic on `i`.
* `fetch_weather_forecast` mirrors the method: it builds a parameter set from
  `city` / `api_key` but never uses it, returning the synthetic data.
* `analyze_temperature_trends` mirrors
  `return min(temps), max(temps), sum(temps)/len(temps)` including Python's
  left-to-right evaluation: `min` on an empty sequence raises `ValueError`
  before the division is reached, and `/` on integers is exact true division
  (modelled in `ℚ`), raising `ZeroDivisionError` on a zero denominator.
-/

set_option maxRecDepth 4000

namespace WeatherAnalyzer

/-- One weather measurement, as built by `_generate_sample_data`.
`datetime` is the timestamp measured in hours (`now + i*3` hours). -/
structure WeatherRecord where
  datetime : Int
  temperature : Int
  humidity : Int
  wind_speed : Int
deriving Repr, DecidableEq, Inhabited

/-- Exceptions raised by the Python builtins used in
`analyze_temperature_trends`: `min`/`max` raise `ValueError` on an empty
sequence, `/` raises `ZeroDivisionError` on a zero denominator. -/
inductive PyError where
  | valueError
  | zeroDivisionError
deriving Repr, DecidableEq

deriving instance DecidableEq for Except

/-- Python's `min(xs)`: `ValueError` on the empty list, otherwise a left fold
of binary `min` over the list. -/
def listMin : List Int → Except PyError Int
  | [] => .error .valueError
  | x :: xs => .ok (xs.foldl min x)

/-- Python's `max(xs)`: `ValueError` on the empty list, otherwise a left fold
of binary `max` over the list. -/
def listMax : List Int → Except PyError Int
  | [] => .error .valueError
  | x :: xs => .ok (xs.foldl max x)

/-- Python's true division `a / b` on integers: exact rational result,
`ZeroDivisionError` when `b = 0`. -/
def trueDiv (a b : Int) : Except PyError ℚ :=
  if b = 0 then .error .zeroDivisionError else .ok ((a : ℚ) / (b : ℚ))

/-- `_generate_sample_data`: for `i in range(40)` build a record with
timestamp `now + i*3` hours, `temperature = 20 + ((i % 8) - 4) + (i % 3)`
(base 20 plus `temp_variation` plus the `i % 3` term),
`humidity = 60 + (i % 20)` and `wind_speed = 5 + (i % 10)`. -/
def _generate_sample_data (now : Int) : List WeatherRecord :=
  (List.range 40).map fun i : Nat =>
    { datetime := now + (i : Int) * 3
      temperature := 20 + ((i : Int) % 8 - 4) + (i : Int) % 3
      humidity := 60 + (i : Int) % 20
      wind_speed := 5 + (i : Int) % 10 }

/-- `fetch_weather_forecast(city)`: assembles request parameters from `city`
and the configured `api_key`, but the parameters are never sent anywhere; the
method unconditionally stores and returns `_generate_sample_data()`.  `now` is
the wall-clock value `datetime.now()` observed by the call. -/
def fetch_weather_forecast (now : Int) (api_key city : String) :
    List WeatherRecord :=
  let params := (city, api_key, "metric")
  let _ := params
  _generate_sample_data now

/-- `analyze_temperature_trends`: extract the temperatures and return
`(min(temps), max(temps), sum(temps)/len(temps))`, with Python's
left-to-right evaluation of the tuple. -/
def analyze_temperature_trends (data : List WeatherRecord) :
    Except PyError (Int × Int × ℚ) :=
  let temps := data.map fun d => d.temperature
  (listMin temps).bind fun mn =>
    (listMax temps).bind fun mx =>
      (trueDiv temps.sum (temps.length : Int)).map fun mean => (mn, mx, mean)

/-! ## Helper lemmas about Python's `min`/`max` fold and list sums -/

theorem foldl_min_le_init (xs : List Int) (x : Int) : xs.foldl min x ≤ x := by
  induction xs generalizing x with
  | nil => exact le_refl x
  | cons y ys ih =>
    calc ys.foldl min (min x y) ≤ min x y := ih (min x y)
      _ ≤ x := min_le_left x y

theorem foldl_min_le_mem (xs : List Int) (x t : Int) (ht : t ∈ xs) :
    xs.foldl min x ≤ t := by
  induction xs generalizing x with
  | nil => cases ht
  | cons y ys ih =>
    rcases List.mem_cons.mp ht with rfl | h
    · exact le_trans (foldl_min_le_init ys (min x t)) (min_le_right x t)
    · exact ih (min x y) h

theorem foldl_min_mem (xs : List Int) (x : Int) :
    xs.foldl min x = x ∨ xs.foldl min x ∈ xs := by
  induction xs generalizing x with
  | nil => exact Or.inl rfl
  | cons y ys ih =>
    show ys.foldl min (min x y) = x ∨ _ ∈ y :: ys
    rcases ih (min x y) with h | h
    · rcases min_choice x y with h2 | h2
      · exact Or.inl (h.trans h2)
      · exact Or.inr (List.mem_cons.mpr (Or.inl (h.trans h2)))
    · exact Or.inr (List.mem_cons.mpr (Or.inr h))

theorem init_le_foldl_max (xs : List Int) (x : Int) : x ≤ xs.foldl max x := by
  induction xs generalizing x with
  | nil => exact le_refl x
  | cons y ys ih =>
    calc x ≤ max x y := le_max_left x y
      _ ≤ ys.foldl max (max x y) := ih (max x y)

theorem mem_le_foldl_max (xs : List Int) (x t : Int) (ht : t ∈ xs) :
    t ≤ xs.foldl max x := by
  induction xs generalizing x with
  | nil => cases ht
  | cons y ys ih =>
    rcases List.mem_cons.mp ht with rfl | h
    · exact le_trans (le_max_right x t) (init_le_foldl_max ys (max x t))
    · exact ih (max x y) h

theorem foldl_max_mem (xs : List Int) (x : Int) :
    xs.foldl max x = x ∨ xs.foldl max x ∈ xs := by
  induction xs generalizing x with
  | nil => exact Or.inl rfl
  | cons y ys ih =>
    show ys.foldl max (max x y) = x ∨ _ ∈ y :: ys
    rcases ih (max x y) with h | h
    · rcases max_choice x y with h2 | h2
      · exact Or.inl (h.trans h2)
      · exact Or.inr (List.mem_cons.mpr (Or.inl (h.trans h2)))
    · exact Or.inr (List.mem_cons.mpr (Or.inr h))

theorem mul_length_le_sum (l : List Int) (a : Int) (h : ∀ t ∈ l, a ≤ t) :
    a * l.length ≤ l.sum := by
  induction l with
  | nil => simp
  | cons x xs ih =>
    have hx : a ≤ x := h x (List.mem_cons_self x xs)
    have hxs := ih fun t ht => h t (List.mem_cons_of_mem x ht)
    simp only [List.sum_cons, List.length_cons]
    push_cast
    nlinarith [hx, hxs]

theorem sum_le_mul_length (l : List Int) (a : Int) (h : ∀ t ∈ l, t ≤ a) :
    l.sum ≤ a * l.length := by
  induction l with
  | nil => simp
  | cons x xs ih =>
    have hx : x ≤ a := h x (List.mem_cons_self x xs)
    have hxs := ih fun t ht => h t (List.mem_cons_of_mem x ht)
    simp only [List.sum_cons, List.length_cons]
    push_cast
    nlinarith [hx, hxs]

/-- The non-timestamp fields of the synthetic data do not depend on the clock:
the temperature column is the same for every `now`. -/
theorem gen_temps_const (now : Int) :
    (_generate_sample_data now).map (fun d => d.temperature) =
      (_generate_sample_data 0).map (fun d => d.temperature) := by
  simp [_generate_sample_data, List.map_map, Function.comp]

/-- `analyze_temperature_trends` depends on the records only through their
temperature column. -/
theorem analyze_congr_temps (d1 d2 : List WeatherRecord)
    (h : d1.map (fun d => d.temperature) = d2.map (fun d => d.temperature)) :
    analyze_temperature_trends d1 = analyze_temperature_trends d2 := by
  unfold analyze_temperature_trends
  rw [h]

/-! ## Claim theorems -/

/-- Claim C1, counterexample: on the default synthetic 40-record set the
analyzer returns minimum temperature `16`, not `17` as claimed (record `i = 0`
has temperature `20 + (0 % 8 - 4) + 0 % 3 = 16`). -/
theorem C1_counterexample :
    analyze_temperature_trends (_generate_sample_data 0) =
      .ok (16, 25, 819 / 40) ∧ (16 : Int) ≠ 17 := by
  exact ⟨by rfl, by decide⟩

/-- Claim C1, amended: on the default synthetic 40-record set (any clock value
`now`) the analyzer returns minimum temperature `16`, maximum temperature `25`,
and mean `819/40`, which is exactly the arithmetic average (sum `819` divided
by count `40`) of the 40 generated temperature values. -/
theorem C1_default_analysis (now : Int) :
    analyze_temperature_trends (_generate_sample_data now) =
      .ok (16, 25, 819 / 40) ∧
    ((_generate_sample_data now).map (fun d => d.temperature)).sum = 819 ∧
    ((_generate_sample_data now).map (fun d => d.temperature)).length = 40 ∧
    (819 / 40 : ℚ) = (819 : ℚ) / (40 : ℚ) := by
  refine ⟨?_, ?_, ?_, rfl⟩
  · rw [analyze_congr_temps _ _ (gen_temps_const now)]
    rfl
  · rw [gen_temps_const now]
    decide
  · rw [gen_temps_const now]
    decide

/-- Claim C5, counterexample: on an empty record sequence the analyzer does not
fail with a division by zero; Python evaluates `min(temps)` first, which raises
`ValueError` on the empty sequence, so the division is never reached. -/
theorem C5_counterexample :
    analyze_temperature_trends [] = .error PyError.valueError ∧
    PyError.valueError ≠ PyError.zeroDivisionError := by
  exact ⟨rfl, by decide⟩

/-- Claim C5, amended: on an empty record sequence the analyzer fails (with the
`ValueError` raised by `min` on an empty sequence, before the division is
evaluated); it requires a non-empty input and defines no sentinel result for
the empty case. -/
theorem C5_empty_fails :
    analyze_temperature_trends [] = .error PyError.valueError ∧
    ∀ v : Int × Int × ℚ, analyze_temperature_trends [] ≠ .ok v := by
  refine ⟨rfl, fun v h => ?_⟩
  simp [analyze_temperature_trends, listMin, Except.bind] at h

/-- Claim C6: on a single-record sequence the analyzer returns
min = max = mean = that record's temperature. -/
theorem C6_singleton (r : WeatherRecord) :
    analyze_temperature_trends [r] =
      .ok (r.temperature, r.temperature, (r.temperature : ℚ)) := by
  simp [analyze_temperature_trends, listMin, listMax, trueDiv,
    Except.bind, Except.map]

/-- Claim C7: the record sequence returned by `fetch_weather_forecast` does not
depend on the `city` argument or the configured `api_key`: two calls that
observe the same clock value return identical record sequences, for any two
cities and any two keys. -/
theorem C7_city_key_irrelevant (now : Int) (k1 k2 c1 c2 : String) :
    fetch_weather_forecast now k1 c1 = fetch_weather_forecast now k2 c2 := rfl

/-- Claim C8: `fetch_weather_forecast` is deterministic modulo the clock. Two
calls observing the same clock value are the same function application, hence
identical; a call at clock `t2` differs from a call at clock `t1` only by a
uniform timestamp shift of `t2 - t1` applied to every record. -/
theorem C8_deterministic_modulo_clock (t1 t2 : Int) (api_key city : String) :
    fetch_weather_forecast t2 api_key city =
      (fetch_weather_forecast t1 api_key city).map
        fun r => { r with datetime := r.datetime + (t2 - t1) } := by
  simp only [fetch_weather_forecast, _generate_sample_data, List.map_map]
  refine List.map_congr_left fun i _ => ?_
  simp only [Function.comp]
  congr 1
  ring

/-- Claim C2: for every `i < 40`, the `i`-th generated record has temperature
`20 + ((i % 8) - 4) + (i % 3)`, humidity `60 + (i % 20)` and wind speed
`5 + (i % 10)`. -/
theorem C2_record_fields (now : Int) (i : Nat) (h : i < 40) :
    ((_generate_sample_data now).getD i default).temperature
        = 20 + ((i : Int) % 8 - 4) + (i : Int) % 3 ∧
    ((_generate_sample_data now).getD i default).humidity
        = 60 + (i : Int) % 20 ∧
    ((_generate_sample_data now).getD i default).wind_speed
        = 5 + (i : Int) % 10 := by
  have hrec : (_generate_sample_data now).getD i default =
      { datetime := now + (i : Int) * 3
        temperature := 20 + ((i : Int) % 8 - 4) + (i : Int) % 3
        humidity := 60 + (i : Int) % 20
        wind_speed := 5 + (i : Int) % 10 } := by
    simp only [_generate_sample_data, List.getD_eq_getElem?_getD,
      List.getElem?_map, List.getElem?_range h, Option.map_some',
      Option.getD_some]
  rw [hrec]
  exact ⟨rfl, rfl, rfl⟩

/-- Witness for C2 at `now = 0`, `i = 5`. -/
theorem C2_record_fields_witness :
    (5 : Nat) < 40 ∧
    (((_generate_sample_data 0).getD 5 default).temperature
        = 20 + (((5 : Nat) : Int) % 8 - 4) + ((5 : Nat) : Int) % 3 ∧
    ((_generate_sample_data 0).getD 5 default).humidity
        = 60 + ((5 : Nat) : Int) % 20 ∧
    ((_generate_sample_data 0).getD 5 default).wind_speed
        = 5 + ((5 : Nat) : Int) % 10) :=
  ⟨by decide, C2_record_fields 0 5 (by decide)⟩

/-- Claim C3: for every city (and key and clock value), the fetched sequence
has exactly 40 records, the timestamp of record `i` is the clock value plus
`i * 3` hours, and the timestamps are strictly increasing. -/
theorem C3_fetch_shape (now : Int) (api_key city : String) :
    (fetch_weather_forecast now api_key city).length = 40 ∧
    (fetch_weather_forecast now api_key city).map (fun r => r.datetime) =
      (List.range 40).map (fun i : Nat => now + (i : Int) * 3) ∧
    ((fetch_weather_forecast now api_key city).map
        (fun r => r.datetime)).Pairwise (· < ·) := by
  have hmap : (fetch_weather_forecast now api_key city).map
      (fun r => r.datetime) =
        (List.range 40).map (fun i : Nat => now + (i : Int) * 3) := by
    simp [fetch_weather_forecast, _generate_sample_data, List.map_map,
      Function.comp]
  refine ⟨by simp [fetch_weather_forecast, _generate_sample_data], hmap, ?_⟩
  rw [hmap]
  refine List.Pairwise.map _ (fun a b hab => ?_) (List.pairwise_lt_range 40)
  have hab' : (a : Int) < (b : Int) := by exact_mod_cast hab
  linarith

/-- Claim C4: on any non-empty record sequence the analyzer succeeds with a
triple `(mn, mx, mean)` where `mn` ≤ `mean` ≤ `mx`, `mn` and `mx` are the
minimum and maximum of the temperature column (members of it that bound every
member), and the mean is exactly the sum divided by the count. -/
theorem C4_min_le_mean_le_max (data : List WeatherRecord) (h : data ≠ []) :
    ∃ mn mx mean,
      analyze_temperature_trends data = .ok (mn, mx, mean) ∧
      (mn : ℚ) ≤ mean ∧ mean ≤ (mx : ℚ) ∧
      mn ∈ data.map (fun r => r.temperature) ∧
      mx ∈ data.map (fun r => r.temperature) ∧
      (∀ u ∈ data.map (fun r => r.temperature), mn ≤ u ∧ u ≤ mx) ∧
      mean = (((data.map (fun r => r.temperature)).sum : Int) : ℚ) /
        (((data.map (fun r => r.temperature)).length : Nat) : ℚ) := by
  obtain ⟨d, ds, rfl⟩ : ∃ d ds, data = d :: ds := by
    cases data with
    | nil => exact absurd rfl h
    | cons d ds => exact ⟨d, ds, rfl⟩
  have hmap : (d :: ds).map (fun r => r.temperature) =
      d.temperature :: ds.map (fun r => r.temperature) := List.map_cons _ _ _
  set T := d.temperature with hT
  set TS := ds.map (fun r : WeatherRecord => r.temperature) with hTS
  have hlow : ∀ u ∈ T :: TS, TS.foldl min T ≤ u := by
    intro u hu
    rcases List.mem_cons.mp hu with rfl | hu'
    · exact foldl_min_le_init TS T
    · exact foldl_min_le_mem TS T u hu'
  have hhigh : ∀ u ∈ T :: TS, u ≤ TS.foldl max T := by
    intro u hu
    rcases List.mem_cons.mp hu with rfl | hu'
    · exact init_le_foldl_max TS T
    · exact mem_le_foldl_max TS T u hu'
  have hlenpos : (0 : ℚ) < ((T :: TS).length : ℚ) := by
    simp only [List.length_cons]
    exact_mod_cast Nat.succ_pos TS.length
  have hlenne : ((T :: TS).length : Int) ≠ 0 := by
    simp only [List.length_cons]
    omega
  refine ⟨TS.foldl min T, TS.foldl max T,
    ((T :: TS).sum : ℚ) / ((T :: TS).length : ℚ), ?_, ?_, ?_, ?_, ?_, ?_, ?_⟩
  · unfold analyze_temperature_trends
    simp only [hmap, ← hT, ← hTS, listMin, listMax, trueDiv, if_neg hlenne,
      Except.bind, Except.map]
    norm_cast
  · rw [le_div_iff₀ hlenpos]
    calc ((TS.foldl min T : Int) : ℚ) * ((T :: TS).length : ℚ)
        = ((TS.foldl min T * ((T :: TS).length : Int) : Int) : ℚ) := by
          push_cast
          ring
      _ ≤ (((T :: TS).sum : Int) : ℚ) := by
          exact_mod_cast mul_length_le_sum (T :: TS) (TS.foldl min T) hlow
  · rw [div_le_iff₀ hlenpos]
    calc (((T :: TS).sum : Int) : ℚ)
        ≤ ((TS.foldl max T * ((T :: TS).length : Int) : Int) : ℚ) := by
          exact_mod_cast sum_le_mul_length (T :: TS) (TS.foldl max T) hhigh
      _ = ((TS.foldl max T : Int) : ℚ) * ((T :: TS).length : ℚ) := by
          push_cast
          ring
  · rcases foldl_min_mem TS T with h1 | h1
    · rw [h1]
      exact List.mem_cons_self T TS
    · exact List.mem_cons_of_mem T h1
  · rcases foldl_max_mem TS T with h1 | h1
    · rw [h1]
      exact List.mem_cons_self T TS
    · exact List.mem_cons_of_mem T h1
  · exact fun u hu => ⟨hlow u hu, hhigh u hu⟩
  · rw [hmap]

/-- A one-record sequence used as concrete input for witnesses. -/
def sampleRecord : WeatherRecord :=
  { datetime := 0, temperature := 21, humidity := 60, wind_speed := 5 }

/-- Witness for C4 on the concrete one-record sequence `[sampleRecord]`. -/
theorem C4_min_le_mean_le_max_witness :
    ([sampleRecord] : List WeatherRecord) ≠ [] ∧
    (∃ mn mx mean,
      analyze_temperature_trends [sampleRecord] = .ok (mn, mx, mean) ∧
      (mn : ℚ) ≤ mean ∧ mean ≤ (mx : ℚ) ∧
      mn ∈ [sampleRecord].map (fun r => r.temperature) ∧
      mx ∈ [sampleRecord].map (fun r => r.temperature) ∧
      (∀ u ∈ [sampleRecord].map (fun r => r.temperature), mn ≤ u ∧ u ≤ mx) ∧
      mean = ((([sampleRecord].map (fun r => r.temperature)).sum : Int) : ℚ) /
        ((([sampleRecord].map (fun r => r.temperature)).length : Nat) : ℚ)) :=
  ⟨by decide, C4_min_le_mean_le_max [sampleRecord] (by decide)⟩

/-- Claim C10: every generated record satisfies the data model's expected
ranges even though nothing validates them: humidity in `[60, 79]` (hence in
`[0, 100]`), wind speed in `[5, 14]` (hence non-negative), temperature in
`[16, 25]`. -/
theorem C10_field_ranges (now : Int) (r : WeatherRecord)
    (hr : r ∈ _generate_sample_data now) :
    60 ≤ r.humidity ∧ r.humidity ≤ 79 ∧ 0 ≤ r.humidity ∧ r.humidity ≤ 100 ∧
    5 ≤ r.wind_speed ∧ r.wind_speed ≤ 14 ∧ 0 ≤ r.wind_speed ∧
    16 ≤ r.temperature ∧ r.temperature ≤ 25 := by
  simp only [_generate_sample_data, List.mem_map, List.mem_range] at hr
  obtain ⟨i, hi, rfl⟩ := hr
  dsimp only
  omega

/-- The first generated record (`i = 0`, at clock value `0`). -/
def firstRecord : WeatherRecord :=
  { datetime := 0, temperature := 16, humidity := 60, wind_speed := 5 }

/-- Witness for C10 on the first record of the sequence generated at clock
value `0`. -/
theorem C10_field_ranges_witness :
    firstRecord ∈ _generate_sample_data 0 ∧
    (60 ≤ firstRecord.humidity ∧ firstRecord.humidity ≤ 79 ∧
    0 ≤ firstRecord.humidity ∧ firstRecord.humidity ≤ 100 ∧
    5 ≤ firstRecord.wind_speed ∧ firstRecord.wind_speed ≤ 14 ∧
    0 ≤ firstRecord.wind_speed ∧
    16 ≤ firstRecord.temperature ∧ firstRecord.temperature ≤ 25) :=
  ⟨by decide, C10_field_ranges 0 firstRecord (by decide)⟩

end WeatherAnalyzer
